/-
Verification of the MatchAIBackend matching core against its specification.

The embedding below mirrors `src/services/matchingService.js` (compatibility
filter, candidate scorer, batch match resolver) and
`src/controllers/matchingController.js` (match lifecycle engine).  JavaScript
numbers are modelled as rationals, JS `undefined`/absent fields as `Option`,
and the JS falsiness quirks that matter (`0`, `''` and `undefined` are falsy)
are modelled explicitly where the source relies on them.
-/
import Mathlib

namespace MatchAI

/-! ## Data model for users (matchingService.js) -/

/-- The five named 0-100 trait scores, each possibly absent
(`personalityAnalysis.personalityScore` in the source). -/
structure PersonalityScore where
  openness : Option ℚ
  conscientiousness : Option ℚ
  extraversion : Option ℚ
  agreeableness : Option ℚ
  neuroticism : Option ℚ
  deriving DecidableEq

/-- `personalityAnalysis.relationshipStyle` in the source. -/
structure RelationshipStyle where
  attachmentStyle : Option String
  communicationStyle : Option String
  deriving DecidableEq

/-- `personalityAnalysis.compatibilityFactors` in the source. -/
structure CompatibilityFactors where
  dealBreakers : Option (List String)
  mustHaves : Option (List String)
  deriving DecidableEq

/-- `personalityAnalysis` on a user document. -/
structure PersonalityAnalysis where
  personalityScore : Option PersonalityScore
  relationshipStyle : Option RelationshipStyle
  compatibilityFactors : Option CompatibilityFactors
  deriving DecidableEq

/-- A user document as read by the matching service. -/
structure User where
  id : String
  gender : Option String
  interestedIn : Option String
  lookingFor : Option String
  city : Option String
  age : Option ℚ
  relationshipStatus : Option String
  similarityMatching : Bool
  complementaryMatching : Bool
  multiDimensionalMatching : Bool
  dealBreakerFiltering : Bool
  personalityAnalysis : Option PersonalityAnalysis
  deriving DecidableEq

/-- JS `toLowerCase`, modelled per character (the vocabulary this code
normalizes is ASCII). -/
def jsToLower (s : String) : String :=
  String.mk (s.data.map Char.toLower)

/-- JS `trim`: strip leading and trailing whitespace. -/
def jsTrim (s : String) : String :=
  String.mk
    (((s.data.dropWhile Char.isWhitespace).reverse.dropWhile Char.isWhitespace).reverse)

/-- JS truthiness of an optional string (`undefined` and `''` are falsy). -/
def jsTruthyStr (o : Option String) : Bool :=
  match o with
  | none => false
  | some s => s ≠ ""

/-- JS truthiness of an optional number (`undefined` and `0` are falsy). -/
def jsTruthyNum (o : Option ℚ) : Bool :=
  match o with
  | none => false
  | some v => v ≠ 0

/-! ## Compatibility Filter (normalizeGenderValue / checkGenderCompatibility /
normalizeLookingFor / findCandidates) -/

/-- The `genderMap` lookup table inside `normalizeGenderValue`. -/
def genderMap (s : String) : Option String :=
  if s = "male" then some "male"
  else if s = "man" then some "male"
  else if s = "men" then some "male"
  else if s = "female" then some "female"
  else if s = "woman" then some "female"
  else if s = "women" then some "female"
  else if s = "non-binary" then some "non-binary"
  else if s = "nonbinary" then some "non-binary"
  else if s = "other" then some "other"
  else if s = "everyone" then some "everyone"
  else if s = "both" then some "everyone"
  else if s = "all" then some "everyone"
  else none

/-- `normalizeGenderValue(value)`: falsy values map to `''`; otherwise
lower-case, trim, and look up in the gender map, falling back to the
normalized input itself. -/
def normalizeGenderValue (value : Option String) : String :=
  match value with
  | none => ""
  | some v =>
    if v = "" then ""
    else
      let normalized := jsTrim (jsToLower v)
      (genderMap normalized).getD normalized

/-- `checkGenderCompatibility(user1, user2)`. -/
def checkGenderCompatibility (user1 user2 : User) : Bool :=
  let user1Gender := normalizeGenderValue user1.gender
  let user1InterestedIn := normalizeGenderValue user1.interestedIn
  let user2Gender := normalizeGenderValue user2.gender
  let user2InterestedIn := normalizeGenderValue user2.interestedIn
  let user1Interested :=
    if user1InterestedIn = "everyone" then true
    else if user1InterestedIn = user2Gender then true
    else false
  let user2Interested :=
    if user2InterestedIn = "everyone" then true
    else if user2InterestedIn = user1Gender then true
    else false
  user1Interested && user2Interested

/-- The `lookingForMap` lookup table inside `normalizeLookingFor`. -/
def lookingForMap (s : String) : Option String :=
  if s = "friendship" then some "friendship"
  else if s = "friends" then some "friendship"
  else if s = "dating" then some "dating"
  else if s = "dating/relationships" then some "dating"
  else if s = "relationships" then some "dating"
  else if s = "long-term" then some "dating"
  else if s = "both" then some "both"
  else if s = "all" then some "both"
  else none

/-- `normalizeLookingFor(value)`. -/
def normalizeLookingFor (value : Option String) : String :=
  match value with
  | none => ""
  | some v =>
    if v = "" then ""
    else
      let normalized := jsTrim (jsToLower v)
      (lookingForMap normalized).getD normalized

/-- A persisted match record as far as `findCandidates` consults it
(only the two user ids matter for the historical-pair exclusion). -/
structure HistMatch where
  user1_id : String
  user2_id : String
  deriving DecidableEq

/-- The id of the other side of a historical match, exactly as
`getAllMatchesForUser`'s consumer builds `alreadyMatchedUserIds`. -/
def otherSideId (userId : String) (m : HistMatch) : String :=
  if m.user1_id = userId then m.user2_id else m.user1_id

/-- `findCandidates(user, allHistoricalMatches)` restricted to its pure
filtering logic over an explicit active-user pool: skip self, skip anyone
ever matched, require gender compatibility and looking-for compatibility. -/
def findCandidates (user : User) (allUsers : List User)
    (allHistoricalMatches : List HistMatch) : List User :=
  allUsers.filter fun candidate =>
    if candidate.id = user.id then false
    else if (allHistoricalMatches.map (otherSideId user.id)).contains candidate.id then false
    else if ¬ checkGenderCompatibility user candidate then false
    else
      let userLookingFor := normalizeLookingFor user.lookingFor
      let candidateLookingFor := normalizeLookingFor candidate.lookingFor
      let lookingForCompatible :=
        userLookingFor = candidateLookingFor ∨
        userLookingFor = "both" ∨
        candidateLookingFor = "both"
      if ¬ lookingForCompatible then false
      else true

/-! ## Candidate Scorer -/

/-- Value of a trait as read with `scores[trait] || 50`: absent **or zero**
traits fall back to 50 (JS `||` treats `0` as falsy). -/
def traitVal (o : Option ℚ) : ℚ :=
  match o with
  | none => 50
  | some v => if v = 0 then 50 else v

/-- JS comparison `o > c` where `o` may be `undefined` (always false then). -/
def jsGT (o : Option ℚ) (c : ℚ) : Bool :=
  match o with
  | none => false
  | some v => decide (c < v)

/-- JS comparison `o < c` where `o` may be `undefined` (always false then). -/
def jsLT (o : Option ℚ) (c : ℚ) : Bool :=
  match o with
  | none => false
  | some v => decide (v < c)

/-- The user's personality score object, if the whole chain
`personalityAnalysis?.personalityScore` is present. -/
def psOf (u : User) : Option PersonalityScore :=
  u.personalityAnalysis.bind (fun pa => pa.personalityScore)

/-- `Math.round` on a (non-negative in our uses) number: floor of x + 1/2. -/
def jsRound (q : ℚ) : ℤ := ⌊q + 1 / 2⌋

/-- `calculateSimilarityScore(user1, user2)`. -/
def calculateSimilarityScore (user1 user2 : User) : ℚ :=
  let score : ℚ :=
    match psOf user1, psOf user2 with
    | some p1, some p2 =>
      let totalDifference :=
        |traitVal p1.openness - traitVal p2.openness| +
        |traitVal p1.conscientiousness - traitVal p2.conscientiousness| +
        |traitVal p1.extraversion - traitVal p2.extraversion| +
        |traitVal p1.agreeableness - traitVal p2.agreeableness| +
        |traitVal p1.neuroticism - traitVal p2.neuroticism|
      let avgDifference := totalDifference / 5
      max 0 (100 - avgDifference * 2)
    | _, _ => 50
  let score :=
    if user1.relationshipStatus = user2.relationshipStatus then score + 5 else score
  min 100 score

/-- One summand of the balance loop in `calculateComplementaryScore`. -/
def balanceScore (o1 o2 : Option ℚ) : ℚ :=
  let avg := (traitVal o1 + traitVal o2) / 2
  100 - |avg - 50| * 2

/-- `calculateComplementaryScore(user1, user2)`. -/
def calculateComplementaryScore (user1 user2 : User) : ℚ :=
  let score : ℚ :=
    match psOf user1, psOf user2 with
    | some scores1, some scores2 =>
      let extraComp : ℚ :=
        if (jsGT scores1.extraversion 70 && jsLT scores2.extraversion 30) ||
           (jsLT scores1.extraversion 30 && jsGT scores2.extraversion 70) then 1 else 0
      let neuroComp : ℚ :=
        if (jsGT scores1.neuroticism 70 && jsLT scores2.neuroticism 30) ||
           (jsLT scores1.neuroticism 30 && jsGT scores2.neuroticism 70) then 1 else 0
      let complementaryCount := extraComp + neuroComp
      let totalBalance :=
        balanceScore scores1.openness scores2.openness +
        balanceScore scores1.conscientiousness scores2.conscientiousness +
        balanceScore scores1.extraversion scores2.extraversion +
        balanceScore scores1.agreeableness scores2.agreeableness +
        balanceScore scores1.neuroticism scores2.neuroticism
      totalBalance / 5 + complementaryCount * 10
    | _, _ => 50
  min 100 score

/-- `calculateMultiDimensionalScore(user1, user2)`. -/
def calculateMultiDimensionalScore (user1 user2 : User) : ℚ :=
  let similarity := calculateSimilarityScore user1 user2
  let complementary := calculateComplementaryScore user1 user2
  let score := (similarity + complementary) / 2
  let score :=
    match user1.personalityAnalysis.bind (fun pa => pa.relationshipStyle),
          user2.personalityAnalysis.bind (fun pa => pa.relationshipStyle) with
    | some r1, some r2 =>
      let score := if r1.attachmentStyle = r2.attachmentStyle then score + 10 else score
      if jsTruthyStr r1.communicationStyle && jsTruthyStr r2.communicationStyle
      then score + 5 else score
    | _, _ => score
  min 100 score

/-- `calculateDealBreakerScore(user1, user2)`. -/
def calculateDealBreakerScore (user1 _user2 : User) : ℚ :=
  let score : ℚ := 70
  let score :=
    match user1.personalityAnalysis.bind (fun pa => pa.compatibilityFactors)
            |>.bind (fun cf => cf.dealBreakers) with
    | some dealBreakers =>
      if dealBreakers.contains "dishonesty" || dealBreakers.contains "lack of ambition"
      then score + 10 else score
    | none => score
  let score :=
    match user1.personalityAnalysis.bind (fun pa => pa.compatibilityFactors)
            |>.bind (fun cf => cf.mustHaves) with
    | some mustHaves => if mustHaves.length > 0 then score + 10 else score
    | none => score
  min 100 score

/-- Algorithm selection at the top of `scoreCandidates` (default similarity). -/
def chooseAlgorithm (user : User) : String :=
  if user.similarityMatching then "similarity"
  else if user.complementaryMatching then "complementary"
  else if user.multiDimensionalMatching then "multiDimensional"
  else if user.dealBreakerFiltering then "dealBreaker"
  else "similarity"

/-- The strategy dispatch (`switch (algorithm)`) in `scoreCandidates`;
an unrecognized algorithm leaves the initial `score = 0` untouched. -/
def baseStrategyScore (user candidate : User) : ℚ :=
  let algorithm := chooseAlgorithm user
  if algorithm = "similarity" then calculateSimilarityScore user candidate
  else if algorithm = "complementary" then calculateComplementaryScore user candidate
  else if algorithm = "multiDimensional" then calculateMultiDimensionalScore user candidate
  else if algorithm = "dealBreaker" then calculateDealBreakerScore user candidate
  else 0

/-- The same-city 30% boost in `scoreCandidates`, capped at 100. -/
def applyLocationBonus (user candidate : User) (score : ℚ) : ℚ :=
  if jsTruthyStr user.city && jsTruthyStr candidate.city &&
     (jsToLower (user.city.getD "") = jsToLower (candidate.city.getD "") : Bool)
  then min 100 (score * (13 / 10)) else score

/-- The age-proximity bonus in `scoreCandidates`, capped at 100. -/
def applyAgeBonus (user candidate : User) (score : ℚ) : ℚ :=
  if jsTruthyNum user.age && jsTruthyNum candidate.age then
    let ageDiff := |(user.age.getD 0) - (candidate.age.getD 0)|
    let ageBonus : ℚ :=
      if ageDiff ≤ 2 then 10
      else if ageDiff ≤ 5 then 5
      else if ageDiff ≤ 10 then 2
      else 0
    min 100 (score + ageBonus)
  else score

/-- The per-candidate score computed by `scoreCandidates`: strategy base
score, then same-city 1.3x multiplier capped at 100, then age-proximity
bonus capped at 100, then `Math.round`. -/
def scoreCandidate (user candidate : User) : ℤ :=
  jsRound (applyAgeBonus user candidate
    (applyLocationBonus user candidate (baseStrategyScore user candidate)))

/-! ## Batch Match Resolver (processMatches) -/

/-- One entry of `allMatches` in `runDailyMatching`: a scored proposal from
one user towards another, tagged with the pair key. -/
structure Proposal where
  user1_id : String
  user2_id : String
  user1_score : ℤ
  user1_algorithm : String
  user1_reason : String
  pairKey : String
  deriving DecidableEq

/-- A resolved `mutual_algorithm` record as built by `processMatches`. -/
structure MutualOut where
  user1_id : String
  user2_id : String
  match_type : String
  user1_score : ℤ
  user2_score : ℤ
  user1_algorithm : String
  user2_algorithm : String
  user1_reason : String
  user2_reason : String
  combined_score : ℤ
  deriving DecidableEq

/-- A resolved `one_way_interest` record as built by `processMatches`. -/
structure OneWayOut where
  user1_id : String
  user2_id : String
  match_type : String
  user1_score : ℤ
  user1_algorithm : String
  user1_reason : String
  combined_score : ℤ
  deriving DecidableEq

/-- The mutual record built from the two proposals of a pair
(`matches[0]` and `matches[1]` in the source). -/
def mkMutual (match1 match2 : Proposal) : MutualOut :=
  { user1_id := match1.user1_id
    user2_id := match1.user2_id
    match_type := "mutual_algorithm"
    user1_score := match1.user1_score
    user2_score := match2.user1_score
    user1_algorithm := match1.user1_algorithm
    user2_algorithm := match2.user1_algorithm
    user1_reason := match1.user1_reason
    user2_reason := match2.user1_reason
    combined_score := jsRound (((match1.user1_score : ℚ) + (match2.user1_score : ℚ)) / 2) }

/-- The one-way record built from a lone proposal. -/
def mkOneWay (m : Proposal) : OneWayOut :=
  { user1_id := m.user1_id
    user2_id := m.user2_id
    match_type := "one_way_interest"
    user1_score := m.user1_score
    user1_algorithm := m.user1_algorithm
    user1_reason := m.user1_reason
    combined_score := m.user1_score }

/-- Pair keys in order of first appearance: the key order of the JS object
`matchesByPair` built by insertion. -/
def firstKeys : List String → List String
  | [] => []
  | k :: ks => k :: firstKeys (ks.filter (fun x => x ≠ k))
termination_by ks => ks.length
decreasing_by
  simp only [List.length_cons]
  exact Nat.lt_succ_of_le (List.length_filter_le _ _)

/-- `processMatches(allMatches)`: group proposals by `pairKey`; groups of two
become mutual records, singletons become one-way records. -/
def processMatches (allMatches : List Proposal) : List MutualOut × List OneWayOut :=
  let keys := firstKeys (allMatches.map (fun m => m.pairKey))
  (keys.filterMap fun k =>
      match allMatches.filter (fun m => m.pairKey = k) with
      | [match1, match2] => some (mkMutual match1 match2)
      | _ => none,
   keys.filterMap fun k =>
      match allMatches.filter (fun m => m.pairKey = k) with
      | [m] => some (mkOneWay m)
      | _ => none)

/-! ## Match Lifecycle Engine (matchingController.js)

Server timestamps are modelled by a `now : ℕ` argument; Firestore's
`FieldValue.increment(1)` on a possibly-missing counter is modelled by a
plain `ℕ` starting at 0. -/

/-- A persisted match record with the fields touched by the lifecycle
operations.  Fresh records (see `saveMatches`) carry no `match_status`
field, hence the `Option`. -/
structure MatchRecord where
  user1_id : String
  user2_id : String
  match_type : String
  user1_action : Option String
  user2_action : Option String
  user1_expressed_interest : Bool
  user2_notified_of_interest : Bool
  user1_second_chance_offered : Bool
  user2_second_chance_offered : Bool
  user1_second_chance_response : Option String
  user2_second_chance_response : Option String
  match_status : Option String
  chat_unlocked : Bool
  visible_to_user1 : Bool
  visible_to_user2 : Bool
  deleted_reason : Option String
  deleted_at : Option ℕ
  interest_expressed_at : Option ℕ
  interest_responded_at : Option ℕ
  moved_to_love_at : Option ℕ
  last_action_by : Option String
  last_action_at : Option ℕ
  total_interactions : ℕ
  notification_pending_user1 : Bool
  notification_pending_user2 : Bool
  deriving DecidableEq

/-- A fresh record as persisted by `saveMatches`: no actions, interest not
expressed, chat locked, visible to user1, visible to user2 only for mutual
matches, no notifications pending, and no `match_status` field at all. -/
def freshRecord (u1 u2 mtype : String) : MatchRecord :=
  { user1_id := u1
    user2_id := u2
    match_type := mtype
    user1_action := none
    user2_action := none
    user1_expressed_interest := false
    user2_notified_of_interest := false
    user1_second_chance_offered := false
    user2_second_chance_offered := false
    user1_second_chance_response := none
    user2_second_chance_response := none
    match_status := none
    chat_unlocked := false
    visible_to_user1 := true
    visible_to_user2 := mtype = "mutual_algorithm"
    deleted_reason := none
    deleted_at := none
    interest_expressed_at := none
    interest_responded_at := none
    moved_to_love_at := none
    last_action_by := none
    last_action_at := none
    total_interactions := 0
    notification_pending_user1 := false
    notification_pending_user2 := false }

/-- Stable failure kinds of the lifecycle operations. -/
inductive MatchError where
  | notFound
  | invalidMatchType
  | forbidden
  | alreadyExpressed
  | noInterestToAccept
  deriving DecidableEq

/-- Response payload of `likeMatch`. -/
structure LikeResponse where
  isLoveMatch : Bool
  secondChanceOffered : Bool
  deriving DecidableEq

/-- Response payload of `passMatch`. -/
structure PassResponse where
  isDeleted : Bool
  secondChanceOffered : Bool
  deriving DecidableEq

/-- The audit fields written by every mutating lifecycle operation
(the initial `updateData` object). -/
def withAudit (m : MatchRecord) (userId : String) (now : ℕ) : MatchRecord :=
  { m with
    last_action_by := some userId
    last_action_at := some now
    total_interactions := m.total_interactions + 1 }

/-- `expressInterest`: only user1 of a one-way match, only once. -/
def expressInterest (doc : Option MatchRecord) (userId : String) (now : ℕ) :
    Except MatchError MatchRecord :=
  match doc with
  | none => .error .notFound
  | some m =>
    if m.match_type ≠ "one_way_interest" then .error .invalidMatchType
    else if m.user1_id ≠ userId then .error .forbidden
    else if m.user1_expressed_interest then .error .alreadyExpressed
    else .ok { withAudit m userId now with
               user1_expressed_interest := true
               visible_to_user2 := true
               user2_notified_of_interest := true
               interest_expressed_at := some now
               notification_pending_user2 := true }

/-- `acceptInterest`: only user2 of a one-way match, after interest was
expressed; produces the love state. -/
def acceptInterest (doc : Option MatchRecord) (userId : String) (now : ℕ) :
    Except MatchError MatchRecord :=
  match doc with
  | none => .error .notFound
  | some m =>
    if m.match_type ≠ "one_way_interest" then .error .invalidMatchType
    else if m.user2_id ≠ userId then .error .forbidden
    else if ¬ m.user1_expressed_interest then .error .noInterestToAccept
    else .ok { withAudit m userId now with
               user2_action := some "like"
               chat_unlocked := true
               match_status := some "love"
               interest_responded_at := some now
               moved_to_love_at := some now
               notification_pending_user1 := true
               notification_pending_user2 := true }

/-- `likeMatch`: mutual matches only; handles second-chance likes and
regular likes.  The response's `isLoveMatch` is the updated record's
`chat_unlocked`, as in the source. -/
def likeMatch (doc : Option MatchRecord) (userId : String) (isSecondChance : Bool)
    (now : ℕ) : Except MatchError (MatchRecord × LikeResponse) :=
  match doc with
  | none => .error .notFound
  | some m =>
    if m.match_type ≠ "mutual_algorithm" then .error .invalidMatchType
    else
      let isUser1 := m.user1_id = userId
      let isUser2 := m.user2_id = userId
      if ¬ isUser1 ∧ ¬ isUser2 then .error .forbidden
      else
        let base := withAudit m userId now
        if isSecondChance then
          let withResp :=
            if isUser1 then
              { base with user1_second_chance_response := some "like"
                          user1_action := some "like" }
            else
              { base with user2_second_chance_response := some "like"
                          user2_action := some "like" }
          let updated :=
            { withResp with chat_unlocked := true
                            match_status := some "love"
                            moved_to_love_at := some now
                            notification_pending_user1 := true
                            notification_pending_user2 := true }
          .ok (updated, { isLoveMatch := updated.chat_unlocked, secondChanceOffered := false })
        else
          if isUser1 then
            let b := { base with user1_action := some "like"
                                 notification_pending_user2 := true }
            if m.user2_action = some "like" then
              let updated :=
                { b with chat_unlocked := true
                         match_status := some "love"
                         moved_to_love_at := some now
                         notification_pending_user1 := true
                         notification_pending_user2 := true }
              .ok (updated, { isLoveMatch := updated.chat_unlocked, secondChanceOffered := false })
            else if m.user2_action = some "pass" then
              let updated := { b with user2_second_chance_offered := true }
              .ok (updated, { isLoveMatch := updated.chat_unlocked, secondChanceOffered := true })
            else
              .ok (b, { isLoveMatch := b.chat_unlocked, secondChanceOffered := false })
          else
            let b := { base with user2_action := some "like"
                                 notification_pending_user1 := true }
            if m.user1_action = some "like" then
              let updated :=
                { b with chat_unlocked := true
                         match_status := some "love"
                         moved_to_love_at := some now
                         notification_pending_user1 := true
                         notification_pending_user2 := true }
              .ok (updated, { isLoveMatch := updated.chat_unlocked, secondChanceOffered := false })
            else if m.user1_action = some "pass" then
              let updated := { b with user1_second_chance_offered := true }
              .ok (updated, { isLoveMatch := updated.chat_unlocked, secondChanceOffered := true })
            else
              .ok (b, { isLoveMatch := b.chat_unlocked, secondChanceOffered := false })

/-- The terminal-state overwrite applied by `passMatch` when `shouldDelete`
is set. -/
def applyDeletion (m : MatchRecord) (isSecondChance : Bool) (now : ℕ) : MatchRecord :=
  { m with
    match_status := some "rejected"
    deleted_at := some now
    deleted_reason := some (if isSecondChance then "second_chance_rejected" else "both_passed")
    visible_to_user1 := false
    visible_to_user2 := false }

/-- The branch structure of `passMatch` once the caller is known to be a
participant: the updated record (before any deletion overwrite), the
`shouldDelete` flag, and the `secondChanceOffered` flag. -/
def passStep (m : MatchRecord) (userId : String) (isSecondChance : Bool)
    (now : ℕ) : MatchRecord × Bool × Bool :=
  let isUser1 := m.user1_id = userId
  let isUser2 := m.user2_id = userId
  let base := withAudit m userId now
  if m.match_type = "one_way_interest" then
    if isUser1 ∧ ¬ m.user1_expressed_interest then
      ({ base with user1_action := some "pass", visible_to_user1 := false },
       true, false)
    else if isUser2 ∧ m.user1_expressed_interest then
      ({ base with user2_action := some "pass",
                   interest_responded_at := some now },
       true, false)
    else (base, false, false)
  else if m.match_type = "mutual_algorithm" then
    if isSecondChance then
      if isUser1 then
        ({ base with user1_second_chance_response := some "still_pass"
                     user1_action := some "pass" }, true, false)
      else
        ({ base with user2_second_chance_response := some "still_pass"
                     user2_action := some "pass" }, true, false)
    else
      if isUser1 then
        let b := { base with user1_action := some "pass" }
        if m.user2_action = some "pass" then (b, true, false)
        else if m.user2_action = some "like" then
          ({ b with user1_second_chance_offered := true }, false, true)
        else (b, false, false)
      else
        let b := { base with user2_action := some "pass" }
        if m.user1_action = some "pass" then (b, true, false)
        else if m.user1_action = some "like" then
          ({ b with user2_second_chance_offered := true }, false, true)
        else (b, false, false)
  else (base, false, false)

/-- `passMatch`: any participant of an existing match; branches on
`match_type` (one-way, mutual second-chance, mutual regular) and otherwise
records only audit fields.  Note the source has **no** match-type guard. -/
def passMatch (doc : Option MatchRecord) (userId : String) (isSecondChance : Bool)
    (now : ℕ) : Except MatchError (MatchRecord × PassResponse) :=
  match doc with
  | none => .error .notFound
  | some m =>
    let isUser1 := m.user1_id = userId
    let isUser2 := m.user2_id = userId
    if ¬ isUser1 ∧ ¬ isUser2 then .error .forbidden
    else
      let step := passStep m userId isSecondChance now
      let updated := step.1
      let shouldDelete := step.2.1
      let secondChanceOffered := step.2.2
      let final := if shouldDelete then applyDeletion updated isSecondChance now else updated
      .ok (final, { isDeleted := shouldDelete, secondChanceOffered := secondChanceOffered })

/-! ## Reachability of records under lifecycle operations -/

/-- One user-triggered lifecycle operation. -/
inductive LifecycleOp where
  | express (userId : String)
  | accept (userId : String)
  | like (userId : String) (isSecondChance : Bool)
  | pass (userId : String) (isSecondChance : Bool)

/-- Effect of an operation on a stored record; failed operations write
nothing. -/
def applyOp (m : MatchRecord) (op : LifecycleOp) (now : ℕ) : MatchRecord :=
  match op with
  | .express u =>
    match expressInterest (some m) u now with
    | .ok m2 => m2
    | .error _ => m
  | .accept u =>
    match acceptInterest (some m) u now with
    | .ok m2 => m2
    | .error _ => m
  | .like u sc =>
    match likeMatch (some m) u sc now with
    | .ok r => r.1
    | .error _ => m
  | .pass u sc =>
    match passMatch (some m) u sc now with
    | .ok r => r.1
    | .error _ => m

/-- Records reachable from a freshly created mutual or one-way record by
any sequence of lifecycle operations. -/
inductive Reachable : MatchRecord → Prop where
  | freshMutual (u1 u2 : String) : Reachable (freshRecord u1 u2 "mutual_algorithm")
  | freshOneWay (u1 u2 : String) : Reachable (freshRecord u1 u2 "one_way_interest")
  | step (m : MatchRecord) (op : LifecycleOp) (now : ℕ) :
      Reachable m → Reachable (applyOp m op now)

/-! ## Auxiliary predicates used by the statements -/

/-- A possibly-absent trait value is in the documented 0-100 range when
present. -/
def optBounded (o : Option ℚ) : Prop :=
  ∀ v, o = some v → 0 ≤ v ∧ v ≤ 100

/-- All five trait fields are in range when present. -/
def psBounded (p : PersonalityScore) : Prop :=
  optBounded p.openness ∧ optBounded p.conscientiousness ∧
  optBounded p.extraversion ∧ optBounded p.agreeableness ∧
  optBounded p.neuroticism

/-- A user's personality trait vector, if it exists, is in range. -/
def userTraitsBounded (u : User) : Prop :=
  ∀ p, psOf u = some p → psBounded p

/-- Fill one trait slot: if the flag is set and the trait is absent, make it
an explicit 50; present traits are never touched. -/
def fillTrait (b : Bool) (o : Option ℚ) : Option ℚ :=
  match o with
  | none => if b then some 50 else none
  | some v => some v

/-- Fill a chosen subset of absent traits with explicit 50s. -/
def fillPS (b1 b2 b3 b4 b5 : Bool) (p : PersonalityScore) : PersonalityScore :=
  { openness := fillTrait b1 p.openness
    conscientiousness := fillTrait b2 p.conscientiousness
    extraversion := fillTrait b3 p.extraversion
    agreeableness := fillTrait b4 p.agreeableness
    neuroticism := fillTrait b5 p.neuroticism }

/-- Replace a user's personality score object, keeping everything else. -/
def withPS (u : User) (pa : PersonalityAnalysis) (p : PersonalityScore) : User :=
  { u with personalityAnalysis := some { pa with personalityScore := some p } }

/-- The lifecycle (non-audit) portion of a match record: everything except
`last_action_by`, `last_action_at`, `total_interactions` and the raw
timestamps. -/
def lifecycleState (m : MatchRecord) :
    Option String × Option String × Bool × Bool × Bool × Option String ×
    Option String × Option String × Bool × Bool × Bool × Option String :=
  (m.user1_action, m.user2_action,
   m.user1_second_chance_offered, m.user2_second_chance_offered,
   m.chat_unlocked, m.match_status,
   m.user1_second_chance_response, m.user2_second_chance_response,
   m.visible_to_user1, m.visible_to_user2,
   m.user1_expressed_interest, m.deleted_reason)

/-- The invariant actually maintained by the lifecycle engine: love always
comes with an unlocked chat, and an unlocked chat only ever accompanies the
`love` status or a later `rejected` status (deletion never re-locks chat). -/
def StatusInv (m : MatchRecord) : Prop :=
  (m.match_status = some "love" → m.chat_unlocked = true) ∧
  (m.chat_unlocked = true →
    m.match_status = some "love" ∨ m.match_status = some "rejected")

/-! ## Theorems -/

/-- C4: on a mutual match, a second-chance like by either side records that
side's `second_chance_response='like'` and `action='like'`, and
unconditionally produces the love state (`chat_unlocked=true`,
`match_status='love'`), whatever the other side's recorded action; the
response reports `isLoveMatch=true`. -/
theorem like_second_chance_love (m : MatchRecord) (u : String) (now : ℕ)
    (hm : m.match_type = "mutual_algorithm") (hu : m.user1_id = u ∨ m.user2_id = u) :
    ∃ m2 r, likeMatch (some m) u true now = .ok (m2, r) ∧
      m2.chat_unlocked = true ∧ m2.match_status = some "love" ∧
      r.isLoveMatch = true ∧
      (m.user1_id = u →
        m2.user1_second_chance_response = some "like" ∧ m2.user1_action = some "like") ∧
      (m.user1_id ≠ u →
        m2.user2_second_chance_response = some "like" ∧ m2.user2_action = some "like") := by
  by_cases h1 : m.user1_id = u
  · refine ⟨{ withAudit m u now with
              user1_second_chance_response := some "like"
              user1_action := some "like"
              chat_unlocked := true
              match_status := some "love"
              moved_to_love_at := some now
              notification_pending_user1 := true
              notification_pending_user2 := true },
            { isLoveMatch := true, secondChanceOffered := false },
            ?_, rfl, rfl, rfl, fun _ => ⟨rfl, rfl⟩, fun h => absurd h1 h⟩
    simp [likeMatch, hm, h1, withAudit]
  · have h2 : m.user2_id = u := hu.resolve_left h1
    refine ⟨{ withAudit m u now with
              user2_second_chance_response := some "like"
              user2_action := some "like"
              chat_unlocked := true
              match_status := some "love"
              moved_to_love_at := some now
              notification_pending_user1 := true
              notification_pending_user2 := true },
            { isLoveMatch := true, secondChanceOffered := false },
            ?_, rfl, rfl, rfl, fun h => absurd h h1, fun _ => ⟨rfl, rfl⟩⟩
    simp [likeMatch, hm, h1, h2, withAudit]

/-- Witness for C4: a concrete second-chance like on a fresh mutual match. -/
theorem like_second_chance_love_witness :
    ∃ m2 r, likeMatch (some (freshRecord "a" "b" "mutual_algorithm")) "b" true 7 =
        .ok (m2, r) ∧
      m2.chat_unlocked = true ∧ m2.match_status = some "love" ∧
      r.isLoveMatch = true ∧
      ((freshRecord "a" "b" "mutual_algorithm").user1_id = "b" →
        m2.user1_second_chance_response = some "like" ∧ m2.user1_action = some "like") ∧
      ((freshRecord "a" "b" "mutual_algorithm").user1_id ≠ "b" →
        m2.user2_second_chance_response = some "like" ∧ m2.user2_action = some "like") :=
  like_second_chance_love (freshRecord "a" "b" "mutual_algorithm") "b" 7 rfl
    (Or.inr rfl)

/-- C5: on a mutual match, a second-chance pass by either side records that
side's `second_chance_response='still_pass'` and `action='pass'` and makes
the record terminal: `match_status='rejected'`,
`deleted_reason='second_chance_rejected'`, both visibility flags false; the
response reports `isDeleted=true`. -/
theorem pass_second_chance_terminal (m : MatchRecord) (u : String) (now : ℕ)
    (hm : m.match_type = "mutual_algorithm") (hu : m.user1_id = u ∨ m.user2_id = u) :
    ∃ m2 r, passMatch (some m) u true now = .ok (m2, r) ∧
      m2.match_status = some "rejected" ∧
      m2.deleted_reason = some "second_chance_rejected" ∧
      m2.visible_to_user1 = false ∧ m2.visible_to_user2 = false ∧
      r.isDeleted = true ∧
      (m.user1_id = u →
        m2.user1_second_chance_response = some "still_pass" ∧
        m2.user1_action = some "pass") ∧
      (m.user1_id ≠ u →
        m2.user2_second_chance_response = some "still_pass" ∧
        m2.user2_action = some "pass") := by
  have hmt : m.match_type ≠ "one_way_interest" := by rw [hm]; decide
  by_cases h1 : m.user1_id = u
  · refine ⟨applyDeletion
              { withAudit m u now with
                user1_second_chance_response := some "still_pass"
                user1_action := some "pass" } true now,
            { isDeleted := true, secondChanceOffered := false },
            ?_, rfl, rfl, rfl, rfl, rfl, fun _ => ⟨rfl, rfl⟩, fun h => absurd h1 h⟩
    simp [passMatch, passStep, hm, hmt, h1, withAudit]
  · have h2 : m.user2_id = u := hu.resolve_left h1
    refine ⟨applyDeletion
              { withAudit m u now with
                user2_second_chance_response := some "still_pass"
                user2_action := some "pass" } true now,
            { isDeleted := true, secondChanceOffered := false },
            ?_, rfl, rfl, rfl, rfl, rfl, fun h => absurd h h1, fun _ => ⟨rfl, rfl⟩⟩
    simp [passMatch, passStep, hm, hmt, h1, h2, withAudit]

/-- Witness for C5: a concrete second-chance pass on a fresh mutual match. -/
theorem pass_second_chance_terminal_witness :
    ∃ m2 r, passMatch (some (freshRecord "a" "b" "mutual_algorithm")) "a" true 9 =
        .ok (m2, r) ∧
      m2.match_status = some "rejected" ∧
      m2.deleted_reason = some "second_chance_rejected" ∧
      m2.visible_to_user1 = false ∧ m2.visible_to_user2 = false ∧
      r.isDeleted = true ∧
      ((freshRecord "a" "b" "mutual_algorithm").user1_id = "a" →
        m2.user1_second_chance_response = some "still_pass" ∧
        m2.user1_action = some "pass") ∧
      ((freshRecord "a" "b" "mutual_algorithm").user1_id ≠ "a" →
        m2.user2_second_chance_response = some "still_pass" ∧
        m2.user2_action = some "pass") :=
  pass_second_chance_terminal (freshRecord "a" "b" "mutual_algorithm") "a" 9 rfl
    (Or.inl rfl)

/-- C10: on a one-way match, a pass by side 1 after interest was expressed,
or by side 2 before interest was expressed, succeeds with `isDeleted=false`
and changes nothing except the audit fields: `total_interactions` is
incremented and `last_action_by` / `last_action_at` are refreshed. -/
theorem one_way_pass_noop_frame (m : MatchRecord) (u : String) (sc : Bool) (now : ℕ)
    (hm : m.match_type = "one_way_interest")
    (hcase : (m.user1_id = u ∧ m.user2_id ≠ u ∧ m.user1_expressed_interest = true) ∨
             (m.user2_id = u ∧ m.user1_id ≠ u ∧ m.user1_expressed_interest = false)) :
    passMatch (some m) u sc now =
      .ok ({ m with last_action_by := some u
                    last_action_at := some now
                    total_interactions := m.total_interactions + 1 },
           { isDeleted := false, secondChanceOffered := false }) := by
  rcases hcase with ⟨h1, h2, hexp⟩ | ⟨h2, h1, hexp⟩ <;>
    simp [passMatch, passStep, hm, h1, h2, hexp, withAudit]

/-- Witness for C10: side 2 passes a fresh one-way match (no interest yet). -/
theorem one_way_pass_noop_frame_witness :
    passMatch (some (freshRecord "a" "b" "one_way_interest")) "b" false 4 =
      .ok ({ freshRecord "a" "b" "one_way_interest" with
              last_action_by := some "b"
              last_action_at := some 4
              total_interactions :=
                (freshRecord "a" "b" "one_way_interest").total_interactions + 1 },
           { isDeleted := false, secondChanceOffered := false }) :=
  one_way_pass_noop_frame (freshRecord "a" "b" "one_way_interest") "b" false 4 rfl
    (Or.inr ⟨rfl, by decide, rfl⟩)

/-- C3 counterexample: a participant's pass on an existing match whose
`match_type` is unsupported (here `'speed_dating'`) succeeds — it does not
fail with `InvalidMatchType`.  Only the audit fields change. -/
theorem pass_invalid_type_cex :
    passMatch (some (freshRecord "a" "b" "speed_dating")) "a" false 5 =
      .ok ({ freshRecord "a" "b" "speed_dating" with
              last_action_by := some "a"
              last_action_at := some 5
              total_interactions := 1 },
           { isDeleted := false, secondChanceOffered := false }) := by
  rfl

/-- C3 (amended): with matchId and userId present, `passMatch` can only fail
as `NotFound` or `Forbidden`; in particular a pass by a participant on an
existing match of unsupported `match_type` succeeds with `isDeleted=false`,
touching only the audit fields, rather than failing with
`InvalidMatchType`. -/
theorem pass_failure_kinds (doc : Option MatchRecord) (u : String) (sc : Bool)
    (now : ℕ) :
    ((∃ res, passMatch doc u sc now = .ok res) ∨
     passMatch doc u sc now = .error .notFound ∨
     passMatch doc u sc now = .error .forbidden) ∧
    (∀ m, doc = some m → (m.user1_id = u ∨ m.user2_id = u) →
      m.match_type ≠ "one_way_interest" → m.match_type ≠ "mutual_algorithm" →
      passMatch doc u sc now =
        .ok ({ m with last_action_by := some u
                      last_action_at := some now
                      total_interactions := m.total_interactions + 1 },
             { isDeleted := false, secondChanceOffered := false })) := by
  constructor
  · match doc with
    | none => exact Or.inr (Or.inl rfl)
    | some m =>
      by_cases hpart : ¬ m.user1_id = u ∧ ¬ m.user2_id = u
      · refine Or.inr (Or.inr ?_)
        simp [passMatch, hpart]
      · refine Or.inl ?_
        simp only [passMatch]
        rw [if_neg hpart]
        exact ⟨_, rfl⟩
  · intro m hdoc hu ht1 ht2
    subst hdoc
    rcases hu with h1 | h2
    · simp [passMatch, passStep, ht1, ht2, h1, withAudit]
    · simp [passMatch, passStep, ht1, ht2, h2, withAudit]

/-- Witness for C3: instantiating the amended statement at the concrete
unsupported-type record shows the concrete success. -/
theorem pass_failure_kinds_witness :
    passMatch (some (freshRecord "a" "b" "dating_event")) "b" true 3 =
      .ok ({ freshRecord "a" "b" "dating_event" with
              last_action_by := some "b"
              last_action_at := some 3
              total_interactions :=
                (freshRecord "a" "b" "dating_event").total_interactions + 1 },
           { isDeleted := false, secondChanceOffered := false }) :=
  (pass_failure_kinds (some (freshRecord "a" "b" "dating_event")) "b" true 3).2
    (freshRecord "a" "b" "dating_event") rfl (Or.inr rfl) (by decide) (by decide)

/-- Pair keys of the proposal list, deduplicated in first-appearance order,
contain exactly the keys occurring in the list. -/
theorem mem_firstKeys (k : String) (l : List String) :
    k ∈ firstKeys l ↔ k ∈ l := by
  induction l using firstKeys.induct with
  | case1 => simp [firstKeys]
  | case2 a as ih =>
    rw [firstKeys]
    simp only [List.mem_cons]
    rw [ih]
    by_cases hak : k = a
    · simp [hak]
    · simp [hak, List.mem_filter]

/-- C6: after grouping a sweep's surviving proposals by `pairKey`, a key
with exactly two proposals yields one `mutual_algorithm` record carrying
both sides' score, algorithm and reason, with `combined_score` the rounded
mean of the two scores; a key with exactly one proposal yields one
`one_way_interest` record carrying side 1's score, algorithm and reason,
with `combined_score` equal to side 1's score. -/
theorem processMatches_pair_resolution (l : List Proposal) :
    (∀ m1 m2 : Proposal,
      l.filter (fun p => p.pairKey = m1.pairKey) = [m1, m2] →
      mkMutual m1 m2 ∈ (processMatches l).1 ∧
      (mkMutual m1 m2).match_type = "mutual_algorithm" ∧
      (mkMutual m1 m2).user1_score = m1.user1_score ∧
      (mkMutual m1 m2).user2_score = m2.user1_score ∧
      (mkMutual m1 m2).user1_algorithm = m1.user1_algorithm ∧
      (mkMutual m1 m2).user2_algorithm = m2.user1_algorithm ∧
      (mkMutual m1 m2).user1_reason = m1.user1_reason ∧
      (mkMutual m1 m2).user2_reason = m2.user1_reason ∧
      (mkMutual m1 m2).combined_score =
        jsRound (((m1.user1_score : ℚ) + (m2.user1_score : ℚ)) / 2)) ∧
    (∀ m : Proposal,
      l.filter (fun p => p.pairKey = m.pairKey) = [m] →
      mkOneWay m ∈ (processMatches l).2 ∧
      (mkOneWay m).match_type = "one_way_interest" ∧
      (mkOneWay m).user1_score = m.user1_score ∧
      (mkOneWay m).user1_algorithm = m.user1_algorithm ∧
      (mkOneWay m).user1_reason = m.user1_reason ∧
      (mkOneWay m).combined_score = m.user1_score) := by
  constructor
  · intro m1 m2 hf
    have hmem : m1 ∈ l.filter (fun p => p.pairKey = m1.pairKey) := by
      rw [hf]; exact List.mem_cons_self _ _
    have hm1l : m1 ∈ l := (List.mem_filter.mp hmem).1
    have hkey : m1.pairKey ∈ firstKeys (l.map (fun m => m.pairKey)) :=
      (mem_firstKeys _ _).mpr (List.mem_map.mpr ⟨m1, hm1l, rfl⟩)
    refine ⟨?_, rfl, rfl, rfl, rfl, rfl, rfl, rfl, rfl⟩
    refine List.mem_filterMap.mpr ⟨m1.pairKey, hkey, ?_⟩
    rw [hf]
  · intro m hf
    have hmem : m ∈ l.filter (fun p => p.pairKey = m.pairKey) := by
      rw [hf]; exact List.mem_cons_self _ _
    have hml : m ∈ l := (List.mem_filter.mp hmem).1
    have hkey : m.pairKey ∈ firstKeys (l.map (fun m => m.pairKey)) :=
      (mem_firstKeys _ _).mpr (List.mem_map.mpr ⟨m, hml, rfl⟩)
    refine ⟨?_, rfl, rfl, rfl, rfl, rfl⟩
    refine List.mem_filterMap.mpr ⟨m.pairKey, hkey, ?_⟩
    rw [hf]

/-- Witness for C6: a three-proposal sweep with one mutual pair and one
lone proposal. -/
theorem processMatches_pair_resolution_witness :
    mkMutual ⟨"a", "b", 80, "similarity", "ra", "a-b"⟩
        ⟨"b", "a", 71, "complementary", "rb", "a-b"⟩ ∈
      (processMatches [⟨"a", "b", 80, "similarity", "ra", "a-b"⟩,
        ⟨"c", "d", 40, "similarity", "rc", "c-d"⟩,
        ⟨"b", "a", 71, "complementary", "rb", "a-b"⟩]).1 ∧
    (mkMutual ⟨"a", "b", 80, "similarity", "ra", "a-b"⟩
        ⟨"b", "a", 71, "complementary", "rb", "a-b"⟩).combined_score =
      jsRound (((80 : ℚ) + (71 : ℚ)) / 2) ∧
    mkOneWay ⟨"c", "d", 40, "similarity", "rc", "c-d"⟩ ∈
      (processMatches [⟨"a", "b", 80, "similarity", "ra", "a-b"⟩,
        ⟨"c", "d", 40, "similarity", "rc", "c-d"⟩,
        ⟨"b", "a", 71, "complementary", "rb", "a-b"⟩]).2 := by
  have h := processMatches_pair_resolution
    [⟨"a", "b", 80, "similarity", "ra", "a-b"⟩,
     ⟨"c", "d", 40, "similarity", "rc", "c-d"⟩,
     ⟨"b", "a", 71, "complementary", "rb", "a-b"⟩]
  have h1 := h.1 ⟨"a", "b", 80, "similarity", "ra", "a-b"⟩
    ⟨"b", "a", 71, "complementary", "rb", "a-b"⟩ (by rfl)
  have h2 := h.2 ⟨"c", "d", 40, "similarity", "rc", "c-d"⟩ (by rfl)
  exact ⟨h1.1, h1.2.2.2.2.2.2.2.2, h2.1⟩

/-- C7: the Compatibility Filter admits a pair on gender exactly when, after
vocabulary normalization (e.g. `'Men'`→`male`, `'Both'`→`everyone`), each
side's seeking-preference is `everyone` or equals the other side's
normalized gender, checked independently in both directions; and every
candidate surviving `findCandidates` — whatever the personality data —
passed that mutual check against the acting user. -/
theorem gender_compatibility_filter :
    (∀ u v : User, checkGenderCompatibility u v = true ↔
      ((normalizeGenderValue u.interestedIn = "everyone" ∨
        normalizeGenderValue u.interestedIn = normalizeGenderValue v.gender) ∧
       (normalizeGenderValue v.interestedIn = "everyone" ∨
        normalizeGenderValue v.interestedIn = normalizeGenderValue u.gender))) ∧
    (∀ (user : User) (pool : List User) (hist : List HistMatch) (c : User),
      c ∈ findCandidates user pool hist → checkGenderCompatibility user c = true) ∧
    normalizeGenderValue (some "Men") = "male" ∧
    normalizeGenderValue (some "Both") = "everyone" := by
  refine ⟨?_, ?_, by rfl, by rfl⟩
  · intro u v
    simp only [checkGenderCompatibility, Bool.and_eq_true]
    constructor
    · rintro ⟨ha, hb⟩
      constructor
      · by_cases h1 : normalizeGenderValue u.interestedIn = "everyone"
        · exact Or.inl h1
        · rw [if_neg h1] at ha
          by_cases h2 : normalizeGenderValue u.interestedIn = normalizeGenderValue v.gender
          · exact Or.inr h2
          · rw [if_neg h2] at ha; exact absurd ha (by decide)
      · by_cases h1 : normalizeGenderValue v.interestedIn = "everyone"
        · exact Or.inl h1
        · rw [if_neg h1] at hb
          by_cases h2 : normalizeGenderValue v.interestedIn = normalizeGenderValue u.gender
          · exact Or.inr h2
          · rw [if_neg h2] at hb; exact absurd hb (by decide)
    · rintro ⟨ha, hb⟩
      constructor
      · rcases ha with h | h
        · rw [if_pos h]
        · by_cases h1 : normalizeGenderValue u.interestedIn = "everyone"
          · rw [if_pos h1]
          · rw [if_neg h1, if_pos h]
      · rcases hb with h | h
        · rw [if_pos h]
        · by_cases h1 : normalizeGenderValue v.interestedIn = "everyone"
          · rw [if_pos h1]
          · rw [if_neg h1, if_pos h]
  · intro user pool hist c hc
    have hp := (List.mem_filter.mp hc).2
    by_cases hg : checkGenderCompatibility user c = true
    · exact hg
    · exfalso
      simp only [Bool.not_eq_true] at hg
      simp [hg] at hp

/-- Witness for C7: a concrete pool where the surviving candidate passes the
mutual gender check, and the two normalization examples. -/
theorem gender_compatibility_filter_witness :
    checkGenderCompatibility
      ⟨"a", some "Male", some "Everyone", some "dating", none, none, none,
        true, false, false, false, none⟩
      ⟨"b", some "Female", some "Men", some "dating", none, none, none,
        true, false, false, false, none⟩ = true := by
  have hmem :
      (⟨"b", some "Female", some "Men", some "dating", none, none, none,
        true, false, false, false, none⟩ : User) ∈
        findCandidates
          ⟨"a", some "Male", some "Everyone", some "dating", none, none, none,
            true, false, false, false, none⟩
          [⟨"a", some "Male", some "Everyone", some "dating", none, none, none,
             true, false, false, false, none⟩,
           ⟨"b", some "Female", some "Men", some "dating", none, none, none,
             true, false, false, false, none⟩]
          [] := by decide
  exact gender_compatibility_filter.2.1 _ _ [] _ hmem

/-- `Math.round` of a value in [0,100] is an integer in [0,100]. -/
theorem jsRound_bounds {q : ℚ} (h0 : 0 ≤ q) (h1 : q ≤ 100) :
    0 ≤ jsRound q ∧ jsRound q ≤ 100 := by
  unfold jsRound
  constructor
  · exact Int.le_floor.mpr (by push_cast; linarith)
  · have h : (⌊q + 1 / 2⌋ : ℤ) < 101 := Int.floor_lt.mpr (by push_cast; linarith)
    omega

/-- The `|| 50` fallback keeps trait values in [0,100] when the stored
value is. -/
theorem traitVal_bounds {o : Option ℚ} (h : optBounded o) :
    0 ≤ traitVal o ∧ traitVal o ≤ 100 := by
  cases o with
  | none => norm_num [traitVal]
  | some v =>
    simp only [traitVal]
    split_ifs with hv
    · norm_num
    · exact h v rfl

/-- A balance summand of the complementary strategy lies in [0,100] for
in-range traits. -/
theorem balanceScore_bounds {a b : Option ℚ} (ha : optBounded a) (hb : optBounded b) :
    0 ≤ balanceScore a b ∧ balanceScore a b ≤ 100 := by
  obtain ⟨ha0, ha1⟩ := traitVal_bounds ha
  obtain ⟨hb0, hb1⟩ := traitVal_bounds hb
  unfold balanceScore
  have habs : |(traitVal a + traitVal b) / 2 - 50| ≤ 50 := by
    rw [abs_le]; constructor <;> linarith
  have habs0 : (0 : ℚ) ≤ |(traitVal a + traitVal b) / 2 - 50| := abs_nonneg _
  constructor <;> linarith

/-- A score of the shape `Math.min(100, s)` with `s` non-negative lies in
[0,100]. -/
theorem min100_bounds {s : ℚ} (hs : 0 ≤ s) :
    0 ≤ min 100 s ∧ min 100 s ≤ 100 :=
  ⟨le_min (by norm_num) hs, min_le_left _ _⟩

/-- The similarity strategy score is in [0,100] unconditionally. -/
theorem similarity_bounds (u1 u2 : User) :
    0 ≤ calculateSimilarityScore u1 u2 ∧ calculateSimilarityScore u1 u2 ≤ 100 := by
  unfold calculateSimilarityScore
  cases psOf u1 <;> cases psOf u2 <;> dsimp only <;> split_ifs <;>
    apply min100_bounds <;>
    first
      | (exact add_nonneg (le_max_left 0 _) (by norm_num))
      | (exact le_max_left 0 _)
      | norm_num

/-- The complementary strategy score is in [0,100] for in-range traits. -/
theorem complementary_bounds (u1 u2 : User)
    (h1 : userTraitsBounded u1) (h2 : userTraitsBounded u2) :
    0 ≤ calculateComplementaryScore u1 u2 ∧ calculateComplementaryScore u1 u2 ≤ 100 := by
  unfold calculateComplementaryScore
  cases hps1 : psOf u1 with
  | none =>
    cases psOf u2 <;>
      exact ⟨le_min (by norm_num) (by norm_num), min_le_left _ _⟩
  | some p1 =>
    cases hps2 : psOf u2 with
    | none => exact ⟨le_min (by norm_num) (by norm_num), min_le_left _ _⟩
    | some p2 =>
      obtain ⟨ho1, hc1, he1, ha1, hn1⟩ := h1 p1 hps1
      obtain ⟨ho2, hc2, he2, ha2, hn2⟩ := h2 p2 hps2
      obtain ⟨b1l, b1h⟩ := balanceScore_bounds ho1 ho2
      obtain ⟨b2l, b2h⟩ := balanceScore_bounds hc1 hc2
      obtain ⟨b3l, b3h⟩ := balanceScore_bounds he1 he2
      obtain ⟨b4l, b4h⟩ := balanceScore_bounds ha1 ha2
      obtain ⟨b5l, b5h⟩ := balanceScore_bounds hn1 hn2
      dsimp only
      refine ⟨le_min (by norm_num) ?_, min_le_left _ _⟩
      split_ifs <;> linarith

/-- The multi-dimensional strategy score is in [0,100] for in-range
traits. -/
theorem multiDimensional_bounds (u1 u2 : User)
    (h1 : userTraitsBounded u1) (h2 : userTraitsBounded u2) :
    0 ≤ calculateMultiDimensionalScore u1 u2 ∧
      calculateMultiDimensionalScore u1 u2 ≤ 100 := by
  obtain ⟨hs0, hs1⟩ := similarity_bounds u1 u2
  obtain ⟨hc0, hc1⟩ := complementary_bounds u1 u2 h1 h2
  unfold calculateMultiDimensionalScore
  cases u1.personalityAnalysis.bind (fun pa => pa.relationshipStyle) with
  | none =>
    cases u2.personalityAnalysis.bind (fun pa => pa.relationshipStyle) with
    | none =>
      dsimp only
      refine min100_bounds ?_
      exact div_nonneg (add_nonneg hs0 hc0) (by norm_num)
    | some r2 =>
      dsimp only
      refine min100_bounds ?_
      exact div_nonneg (add_nonneg hs0 hc0) (by norm_num)
  | some r1 =>
    cases u2.personalityAnalysis.bind (fun pa => pa.relationshipStyle) with
    | none =>
      dsimp only
      refine min100_bounds ?_
      exact div_nonneg (add_nonneg hs0 hc0) (by norm_num)
    | some r2 =>
      have hbase : 0 ≤ (calculateSimilarityScore u1 u2 + calculateComplementaryScore u1 u2) / 2 :=
        div_nonneg (add_nonneg hs0 hc0) (by norm_num)
      dsimp only
      split_ifs <;> refine min100_bounds ?_ <;>
        first
          | exact hbase
          | exact add_nonneg hbase (by norm_num)
          | exact add_nonneg (add_nonneg hbase (by norm_num)) (by norm_num)

/-- The deal-breaker strategy score is in [0,100] unconditionally. -/
theorem dealBreaker_bounds (u1 u2 : User) :
    0 ≤ calculateDealBreakerScore u1 u2 ∧ calculateDealBreakerScore u1 u2 ≤ 100 := by
  unfold calculateDealBreakerScore
  cases u1.personalityAnalysis.bind (fun pa => pa.compatibilityFactors)
      |>.bind (fun cf => cf.dealBreakers) <;>
    cases u1.personalityAnalysis.bind (fun pa => pa.compatibilityFactors)
        |>.bind (fun cf => cf.mustHaves) <;>
    dsimp only <;>
    first
      | (split_ifs <;> apply min100_bounds <;> norm_num)
      | (apply min100_bounds; norm_num)

/-- The same-city multiplier step preserves [0,100]. -/
theorem applyLocationBonus_bounds (u c : User) {s : ℚ}
    (h : 0 ≤ s ∧ s ≤ 100) :
    0 ≤ applyLocationBonus u c s ∧ applyLocationBonus u c s ≤ 100 := by
  unfold applyLocationBonus
  split_ifs
  · exact min100_bounds (by nlinarith [h.1])
  · exact h

/-- The age-proximity bonus step preserves [0,100]. -/
theorem applyAgeBonus_bounds (u c : User) {s : ℚ}
    (h : 0 ≤ s ∧ s ≤ 100) :
    0 ≤ applyAgeBonus u c s ∧ applyAgeBonus u c s ≤ 100 := by
  unfold applyAgeBonus
  dsimp only
  split_ifs <;>
    first
      | exact h
      | (apply min100_bounds; linarith [h.1])

/-- C2: whenever both users' stored trait values (when present) are in
[0,100], the Candidate Scorer's final score — strategy base score, locality
multiplier, age bonus, each capped at 100, then rounded — is an integer in
[0,100], for every strategy selection. -/
theorem score_bounds (user candidate : User)
    (h1 : userTraitsBounded user) (h2 : userTraitsBounded candidate) :
    0 ≤ scoreCandidate user candidate ∧ scoreCandidate user candidate ≤ 100 := by
  have hb : 0 ≤ baseStrategyScore user candidate ∧
      baseStrategyScore user candidate ≤ 100 := by
    unfold baseStrategyScore
    dsimp only
    split_ifs
    · exact similarity_bounds user candidate
    · exact complementary_bounds user candidate h1 h2
    · exact multiDimensional_bounds user candidate h1 h2
    · exact dealBreaker_bounds user candidate
    · norm_num
  have hl := applyLocationBonus_bounds user candidate hb
  have ha := applyAgeBonus_bounds user candidate hl
  exact jsRound_bounds ha.1 ha.2

/-- Witness for C2: a concrete scored pair with in-range traits. -/
theorem score_bounds_witness :
    0 ≤ scoreCandidate
        ⟨"a", some "Male", some "Everyone", some "dating", some "Delhi", some 30,
          none, false, true, false, false,
          some ⟨some ⟨some 80, some 20, some 90, none, some 10⟩, none, none⟩⟩
        ⟨"b", some "Female", some "Men", some "dating", some "delhi", some 31,
          none, true, false, false, false,
          some ⟨some ⟨some 10, none, some 20, some 100, some 0⟩, none, none⟩⟩ ∧
      scoreCandidate
        ⟨"a", some "Male", some "Everyone", some "dating", some "Delhi", some 30,
          none, false, true, false, false,
          some ⟨some ⟨some 80, some 20, some 90, none, some 10⟩, none, none⟩⟩
        ⟨"b", some "Female", some "Men", some "dating", some "delhi", some 31,
          none, true, false, false, false,
          some ⟨some ⟨some 10, none, some 20, some 100, some 0⟩, none, none⟩⟩ ≤ 100 :=
  score_bounds _ _
    (by intro p hp
        simp only [psOf, Option.bind] at hp
        injection hp with h
        subst h
        refine ⟨?_, ?_, ?_, ?_, ?_⟩ <;> intro v hv <;>
          first
            | (injection hv with h2; subst h2; norm_num)
            | (exact absurd hv (by simp)))
    (by intro p hp
        simp only [psOf, Option.bind] at hp
        injection hp with h
        subst h
        refine ⟨?_, ?_, ?_, ?_, ?_⟩ <;> intro v hv <;>
          first
            | (injection hv with h2; subst h2; norm_num)
            | (exact absurd hv (by simp)))

/-- Filling an absent trait slot with an explicit 50 does not change the
value the `|| 50` fallback reads. -/
theorem traitVal_fillTrait (b : Bool) (o : Option ℚ) :
    traitVal (fillTrait b o) = traitVal o := by
  cases o with
  | none => cases b <;> norm_num [fillTrait, traitVal]
  | some v => rfl

/-- Filling an absent trait with 50 does not change the `> 70` test. -/
theorem jsGT70_fillTrait (b : Bool) (o : Option ℚ) :
    jsGT (fillTrait b o) 70 = jsGT o 70 := by
  cases o with
  | none => cases b <;> decide
  | some v => rfl

/-- Filling an absent trait with 50 does not change the `< 30` test. -/
theorem jsLT30_fillTrait (b : Bool) (o : Option ℚ) :
    jsLT (fillTrait b o) 30 = jsLT o 30 := by
  cases o with
  | none => cases b <;> decide
  | some v => rfl

/-- C9: in similarity and complementary scoring, traits missing from a
present trait vector are read as 50: replacing any chosen subset of absent
traits by explicit 50s leaves both scores unchanged. -/
theorem missing_traits_default_50 (u1 u2 : User) (pa1 pa2 : PersonalityAnalysis)
    (p1 p2 : PersonalityScore)
    (h1 : u1.personalityAnalysis = some pa1) (h1p : pa1.personalityScore = some p1)
    (h2 : u2.personalityAnalysis = some pa2) (h2p : pa2.personalityScore = some p2)
    (b1 b2 b3 b4 b5 c1 c2 c3 c4 c5 : Bool) :
    calculateSimilarityScore (withPS u1 pa1 (fillPS b1 b2 b3 b4 b5 p1))
        (withPS u2 pa2 (fillPS c1 c2 c3 c4 c5 p2)) =
      calculateSimilarityScore u1 u2 ∧
    calculateComplementaryScore (withPS u1 pa1 (fillPS b1 b2 b3 b4 b5 p1))
        (withPS u2 pa2 (fillPS c1 c2 c3 c4 c5 p2)) =
      calculateComplementaryScore u1 u2 := by
  have hps1 : psOf u1 = some p1 := by simp [psOf, h1, h1p]
  have hps2 : psOf u2 = some p2 := by simp [psOf, h2, h2p]
  have hw : ∀ (u : User) (pa : PersonalityAnalysis) (p : PersonalityScore),
      psOf (withPS u pa p) = some p := fun _ _ _ => rfl
  have hrel : ∀ (u : User) (pa : PersonalityAnalysis) (p : PersonalityScore),
      (withPS u pa p).relationshipStatus = u.relationshipStatus := fun _ _ _ => rfl
  constructor
  · simp only [calculateSimilarityScore, hps1, hps2, hw, hrel, fillPS,
      traitVal_fillTrait]
  · simp only [calculateComplementaryScore, hps1, hps2, hw, fillPS,
      balanceScore, traitVal_fillTrait, jsGT70_fillTrait, jsLT30_fillTrait]

/-- Witness for C9: a pair with several absent traits filled by 50s. -/
theorem missing_traits_default_50_witness :
    calculateSimilarityScore
        (withPS ⟨"a", none, none, none, none, none, none, false, false, false, false,
            some ⟨some ⟨some 80, none, some 90, none, some 10⟩, none, none⟩⟩
          ⟨some ⟨some 80, none, some 90, none, some 10⟩, none, none⟩
          (fillPS false true false true false ⟨some 80, none, some 90, none, some 10⟩))
        (withPS ⟨"b", none, none, none, none, none, none, false, false, false, false,
            some ⟨some ⟨none, some 40, none, some 100, some 0⟩, none, none⟩⟩
          ⟨some ⟨none, some 40, none, some 100, some 0⟩, none, none⟩
          (fillPS true false true false true ⟨none, some 40, none, some 100, some 0⟩)) =
      calculateSimilarityScore
        ⟨"a", none, none, none, none, none, none, false, false, false, false,
          some ⟨some ⟨some 80, none, some 90, none, some 10⟩, none, none⟩⟩
        ⟨"b", none, none, none, none, none, none, false, false, false, false,
          some ⟨some ⟨none, some 40, none, some 100, some 0⟩, none, none⟩⟩ ∧
    calculateComplementaryScore
        (withPS ⟨"a", none, none, none, none, none, none, false, false, false, false,
            some ⟨some ⟨some 80, none, some 90, none, some 10⟩, none, none⟩⟩
          ⟨some ⟨some 80, none, some 90, none, some 10⟩, none, none⟩
          (fillPS false true false true false ⟨some 80, none, some 90, none, some 10⟩))
        (withPS ⟨"b", none, none, none, none, none, none, false, false, false, false,
            some ⟨some ⟨none, some 40, none, some 100, some 0⟩, none, none⟩⟩
          ⟨some ⟨none, some 40, none, some 100, some 0⟩, none, none⟩
          (fillPS true false true false true ⟨none, some 40, none, some 100, some 0⟩)) =
      calculateComplementaryScore
        ⟨"a", none, none, none, none, none, none, false, false, false, false,
          some ⟨some ⟨some 80, none, some 90, none, some 10⟩, none, none⟩⟩
        ⟨"b", none, none, none, none, none, none, false, false, false, false,
          some ⟨some ⟨none, some 40, none, some 100, some 0⟩, none, none⟩⟩ :=
  missing_traits_default_50 _ _ _ _ _ _ rfl rfl rfl rfl
    false true false true false true false true false true

/-- C8: on a mutual match, repeating a non-second-chance pass by the same
side (whose action is then already `'pass'`) reproduces the same lifecycle
state — status, actions, visibility, deletion reason and both second-chance
flags — and the same response; in particular, the opposite side's
second-chance-offered flag after the second call equals its value after the
first. -/
theorem pass_idempotent (m : MatchRecord) (u : String) (n1 n2 : ℕ)
    (hm : m.match_type = "mutual_algorithm") (hu : m.user1_id = u ∨ m.user2_id = u) :
    lifecycleState (applyOp (applyOp m (.pass u false) n1) (.pass u false) n2) =
      lifecycleState (applyOp m (.pass u false) n1) ∧
    Except.map (fun r => r.2)
        (passMatch (some (applyOp m (.pass u false) n1)) u false n2) =
      Except.map (fun r => r.2) (passMatch (some m) u false n1) := by
  have hmt : m.match_type ≠ "one_way_interest" := by rw [hm]; decide
  by_cases h1 : m.user1_id = u
  · by_cases hp : m.user2_action = some "pass"
    · constructor <;>
        simp [applyOp, passMatch, passStep, hm, hmt, h1, hp, withAudit, applyDeletion,
          lifecycleState, Except.map]
    · by_cases hl : m.user2_action = some "like"
      · constructor <;>
          simp [applyOp, passMatch, passStep, hm, hmt, h1, hp, hl, withAudit, applyDeletion,
            lifecycleState, Except.map]
      · constructor <;>
          simp [applyOp, passMatch, passStep, hm, hmt, h1, hp, hl, withAudit, applyDeletion,
            lifecycleState, Except.map]
  · have h2 : m.user2_id = u := hu.resolve_left h1
    by_cases hp : m.user1_action = some "pass"
    · constructor <;>
        simp [applyOp, passMatch, passStep, hm, hmt, h1, h2, hp, withAudit, applyDeletion,
          lifecycleState, Except.map]
    · by_cases hl : m.user1_action = some "like"
      · constructor <;>
          simp [applyOp, passMatch, passStep, hm, hmt, h1, h2, hp, hl, withAudit,
            applyDeletion, lifecycleState, Except.map]
      · constructor <;>
          simp [applyOp, passMatch, passStep, hm, hmt, h1, h2, hp, hl, withAudit,
            applyDeletion, lifecycleState, Except.map]

/-- Witness for C8: double pass by user1 on a mutual match the other side
already liked. -/
theorem pass_idempotent_witness :
    lifecycleState
        (applyOp (applyOp
            { freshRecord "a" "b" "mutual_algorithm" with user2_action := some "like" }
            (.pass "a" false) 1) (.pass "a" false) 2) =
      lifecycleState
        (applyOp
          { freshRecord "a" "b" "mutual_algorithm" with user2_action := some "like" }
          (.pass "a" false) 1) ∧
    Except.map (fun r => r.2)
        (passMatch (some (applyOp
            { freshRecord "a" "b" "mutual_algorithm" with user2_action := some "like" }
            (.pass "a" false) 1)) "a" false 2) =
      Except.map (fun r => r.2)
        (passMatch
          (some { freshRecord "a" "b" "mutual_algorithm" with user2_action := some "like" })
          "a" false 1) :=
  pass_idempotent
    { freshRecord "a" "b" "mutual_algorithm" with user2_action := some "like" }
    "a" 1 2 rfl (Or.inl rfl)

/-- Every lifecycle operation preserves `StatusInv`: no operation ever
clears `chat_unlocked`, and `match_status` is only ever written to `love`
(together with the unlock) or to `rejected` (leaving `chat_unlocked`
untouched). -/
theorem statusInv_applyDeletion (m : MatchRecord) (sc : Bool) (now : ℕ) :
    StatusInv (applyDeletion m sc now) := by
  constructor
  · intro h
    simp [applyDeletion] at h
  · intro _
    exact Or.inr (by simp [applyDeletion])

/-- The pre-deletion update of `passMatch` never touches `chat_unlocked` or
`match_status`. -/
theorem passStep_fields (m : MatchRecord) (u : String) (sc : Bool) (now : ℕ) :
    (passStep m u sc now).1.chat_unlocked = m.chat_unlocked ∧
    (passStep m u sc now).1.match_status = m.match_status := by
  unfold passStep
  dsimp only
  split_ifs <;> simp [withAudit]

theorem statusInv_step (m : MatchRecord) (op : LifecycleOp) (now : ℕ)
    (h : StatusInv m) : StatusInv (applyOp m op now) := by
  obtain ⟨hA, hB⟩ := h
  cases op with
  | express u =>
    simp only [applyOp, expressInterest]
    split_ifs <;> simp_all [StatusInv, withAudit]
  | accept u =>
    simp only [applyOp, acceptInterest]
    split_ifs <;> simp_all [StatusInv, withAudit]
  | like u sc =>
    simp only [applyOp, likeMatch]
    split_ifs <;> simp_all [StatusInv, withAudit]
  | pass u sc =>
    obtain ⟨hc, hs⟩ := passStep_fields m u sc now
    simp only [applyOp, passMatch]
    split_ifs with hforb hdel
    · exact ⟨hA, hB⟩
    · exact statusInv_applyDeletion _ _ _
    · constructor
      · intro h2
        rw [hs] at h2
        rw [hc]
        exact hA h2
      · intro h2
        rw [hc] at h2
        rw [hs]
        exact hB h2

/-- C1 counterexample: the one-way sequence expressInterest, acceptInterest
(which unlocks love), then pass by side 2 reaches a record with
`chat_unlocked = true` but `match_status = 'rejected'` — the deletion
branch of `passMatch` never clears `chat_unlocked`, breaking the claimed
equivalence on a reachable record. -/
theorem chat_unlock_love_equiv_cex :
    Reachable (applyOp (applyOp (applyOp (freshRecord "a" "b" "one_way_interest")
        (.express "a") 1) (.accept "b") 2) (.pass "b" false) 3) ∧
    (applyOp (applyOp (applyOp (freshRecord "a" "b" "one_way_interest")
        (.express "a") 1) (.accept "b") 2) (.pass "b" false) 3).match_status =
      some "rejected" ∧
    ¬ ((applyOp (applyOp (applyOp (freshRecord "a" "b" "one_way_interest")
          (.express "a") 1) (.accept "b") 2) (.pass "b" false) 3).chat_unlocked =
            true ↔
        (applyOp (applyOp (applyOp (freshRecord "a" "b" "one_way_interest")
          (.express "a") 1) (.accept "b") 2) (.pass "b" false) 3).match_status =
          some "love") := by
  refine ⟨?_, ?_, ?_⟩
  · exact Reachable.step _ _ _ (Reachable.step _ _ _
      (Reachable.step _ _ _ (Reachable.freshOneWay "a" "b")))
  · decide
  · decide

/-- C1 (amended): on every reachable record, `match_status = 'love'` still
implies `chat_unlocked = true`, and the equivalence
`chat_unlocked = true ⇔ match_status = 'love'` holds whenever the record is
not rejected; a deleting pass applied to a record whose chat is unlocked
sets `match_status = 'rejected'` while leaving `chat_unlocked = true`, which
is the only way the equivalence fails. -/
theorem chat_unlock_love_invariant (m : MatchRecord) (h : Reachable m) :
    (m.match_status = some "love" → m.chat_unlocked = true) ∧
    (m.match_status ≠ some "rejected" →
      (m.chat_unlocked = true ↔ m.match_status = some "love")) := by
  have hInv : StatusInv m := by
    induction h with
    | freshMutual u1 u2 => constructor <;> simp [freshRecord]
    | freshOneWay u1 u2 => constructor <;> simp [freshRecord]
    | step m op now hr ih => exact statusInv_step m op now ih
  exact ⟨hInv.1, fun hne => ⟨fun hc => (hInv.2 hc).resolve_right hne, hInv.1⟩⟩

/-- Witness for C1: the amended invariant evaluated on a fresh mutual
record. -/
theorem chat_unlock_love_invariant_witness :
    ((freshRecord "a" "b" "mutual_algorithm").match_status = some "love" →
      (freshRecord "a" "b" "mutual_algorithm").chat_unlocked = true) ∧
    ((freshRecord "a" "b" "mutual_algorithm").match_status ≠ some "rejected" →
      ((freshRecord "a" "b" "mutual_algorithm").chat_unlocked = true ↔
        (freshRecord "a" "b" "mutual_algorithm").match_status = some "love")) :=
  chat_unlock_love_invariant _ (Reachable.freshMutual "a" "b")

end MatchAI
